import Mathlib

/-!
Shallow embedding of the configuration-reconciliation subsystem of
`engine/config.go` (package `engine`): the `Config` record, the action
bitmask classifier `Validate`, the persistence delta `SyncViper`, the
throttle parser `rateLimiter` with its fail-soft accessors
`UploadLimiter` / `DownloadLimiter`, and the path canonicalizer
`NormlizeConfigDir`.

Go machine values are modelled as follows: `string` as `String`, `bool`
as `Bool`, `int` as `Int` (the values involved never overflow 64 bits),
`uint8` bitmasks as `Nat` (all masks are < 256 so `|||` never wraps).
`SeedRatio` is `float32` in the source; no claim depends on its numeric
semantics (it is outside every classification group and only its
equality is ever consulted), so it is modelled as an `Int`-valued field
with decidable equality.

External collaborators (the filesystem's `filepath.Abs`, the
`datasize.ByteSize` text parser, viper's durable write) are not code of
this repository; they enter as explicit function parameters or as an
`Option String` write outcome, so every theorem quantifies over their
behaviour.
-/

/-- The `Config` struct of `engine/config.go`, fields in declaration order. -/
structure Config where
  AutoStart            : Bool
  EngineDebug          : Bool
  MuteEngineLog        : Bool
  ObfsPreferred        : Bool
  ObfsRequirePreferred : Bool
  DisableTrackers      : Bool
  DisableIPv6          : Bool
  DownloadDirectory    : String
  WatchDirectory       : String
  EnableUpload         : Bool
  EnableSeeding        : Bool
  IncomingPort         : Int
  DoneCmd              : String
  SeedRatio            : Int
  UploadRate           : String
  DownloadRate         : String
  TrackerListURL       : String
  AlwaysAddTrackers    : Bool
  ProxyURL             : String
  RssURL               : String
deriving DecidableEq

/-- `ForbidRuntimeChange uint8 = 1 << iota` -/
def ForbidRuntimeChange : Nat := 1
/-- second bit of the action mask -/
def NeedEngineReConfig : Nat := 2
/-- third bit of the action mask -/
def NeedRestartWatch : Nat := 4
/-- fourth bit of the action mask -/
def NeedUpdateTracker : Nat := 8

/-- The fixed hot-reconfigurable field list iterated by `Validate`
(the string slice at lines 110–113 of `config.go`), as an enumeration. -/
inductive HotField
  | IncomingPort | DownloadDirectory | EngineDebug | EnableUpload | EnableSeeding
  | UploadRate | DownloadRate | ObfsPreferred | ObfsRequirePreferred
  | DisableTrackers | DisableIPv6 | ProxyURL
deriving DecidableEq

/-- `cval.Interface() != ncval.Interface()` for one hot field. -/
def hotFieldDiffers (c nc : Config) : HotField → Bool
  | .IncomingPort => c.IncomingPort != nc.IncomingPort
  | .DownloadDirectory => c.DownloadDirectory != nc.DownloadDirectory
  | .EngineDebug => c.EngineDebug != nc.EngineDebug
  | .EnableUpload => c.EnableUpload != nc.EnableUpload
  | .EnableSeeding => c.EnableSeeding != nc.EnableSeeding
  | .UploadRate => c.UploadRate != nc.UploadRate
  | .DownloadRate => c.DownloadRate != nc.DownloadRate
  | .ObfsPreferred => c.ObfsPreferred != nc.ObfsPreferred
  | .ObfsRequirePreferred => c.ObfsRequirePreferred != nc.ObfsRequirePreferred
  | .DisableTrackers => c.DisableTrackers != nc.DisableTrackers
  | .DisableIPv6 => c.DisableIPv6 != nc.DisableIPv6
  | .ProxyURL => c.ProxyURL != nc.ProxyURL

/-- The hot list in the order the source slice names the fields. -/
def hotFieldList : List HotField :=
  [.IncomingPort, .DownloadDirectory, .EngineDebug, .EnableUpload, .EnableSeeding,
   .UploadRate, .DownloadRate, .ObfsPreferred, .ObfsRequirePreferred,
   .DisableTrackers, .DisableIPv6, .ProxyURL]

/-- The `for … range` loop of `Validate` over the hot list: stops (`break`)
at the first differing field. -/
def hotScan (c nc : Config) : List HotField → Bool
  | [] => false
  | f :: fs => if hotFieldDiffers c nc f then true else hotScan c nc fs

/-- `func (c *Config) Validate(nc *Config) uint8` (lines 93–125):
accumulates the action bits with `|=`. -/
def Validate (c nc : Config) : Nat :=
  let s0 : Nat := 0
  let s1 := if c.DoneCmd ≠ nc.DoneCmd then s0 ||| ForbidRuntimeChange else s0
  let s2 := if c.WatchDirectory ≠ nc.WatchDirectory then s1 ||| NeedRestartWatch else s1
  let s3 := if c.TrackerListURL ≠ nc.TrackerListURL then s2 ||| NeedUpdateTracker else s2
  if hotScan c nc hotFieldList then s3 ||| NeedEngineReConfig else s3

/-- The spec's reading of the classifier (§4.1): the union of four
independent per-group bits, with the hot group a plain logical OR. -/
def classifySpec (c nc : Config) : Nat :=
  (if c.DoneCmd ≠ nc.DoneCmd then ForbidRuntimeChange else 0) |||
  (if c.WatchDirectory ≠ nc.WatchDirectory then NeedRestartWatch else 0) |||
  (if c.TrackerListURL ≠ nc.TrackerListURL then NeedUpdateTracker else 0) |||
  (if hotFieldList.any (hotFieldDiffers c nc) then NeedEngineReConfig else 0)

theorem hotScan_eq_any (c nc : Config) :
    ∀ l : List HotField, hotScan c nc l = l.any (hotFieldDiffers c nc) := by
  intro l
  induction l with
  | nil => rfl
  | cons f fs ih =>
    simp only [hotScan, List.any_cons]
    by_cases h : hotFieldDiffers c nc f = true
    · simp [h]
    · simp [h, ih]

theorem hotFieldDiffers_self (c : Config) (f : HotField) :
    hotFieldDiffers c c f = false := by
  cases f <;> simp [hotFieldDiffers]

/-- An all-default configuration, used to build concrete snapshots. -/
def cfg0 : Config where
  AutoStart := false
  EngineDebug := false
  MuteEngineLog := false
  ObfsPreferred := false
  ObfsRequirePreferred := false
  DisableTrackers := false
  DisableIPv6 := false
  DownloadDirectory := ""
  WatchDirectory := ""
  EnableUpload := false
  EnableSeeding := false
  IncomingPort := 0
  DoneCmd := ""
  SeedRatio := 0
  UploadRate := ""
  DownloadRate := ""
  TrackerListURL := ""
  AlwaysAddTrackers := false
  ProxyURL := ""
  RssURL := ""

/-- C1: `Validate` returns exactly the union of the per-group action bits —
`ForbidRuntimeChange` iff `DoneCmd` differs, `NeedRestartWatch` iff
`WatchDirectory` differs, `NeedUpdateTracker` iff `TrackerListURL` differs,
`NeedEngineReConfig` iff some hot-list field differs; fields outside every
group contribute nothing (the union formula consults no other field), and
`Validate c c = 0` for every configuration `c`. -/
theorem validate_is_union_of_group_bits :
    (∀ c nc : Config, Validate c nc = classifySpec c nc) ∧
    (∀ c : Config, Validate c c = 0) := by
  constructor
  · intro c nc
    simp only [Validate, classifySpec, hotScan_eq_any]
    by_cases h1 : c.DoneCmd = nc.DoneCmd <;>
    by_cases h2 : c.WatchDirectory = nc.WatchDirectory <;>
    by_cases h3 : c.TrackerListURL = nc.TrackerListURL <;>
    cases hh : hotFieldList.any (hotFieldDiffers c nc) <;>
    simp [h1, h2, h3, ForbidRuntimeChange, NeedRestartWatch, NeedUpdateTracker,
      NeedEngineReConfig]
  · intro c
    simp [Validate, hotScan_eq_any, hotFieldDiffers_self, List.any_eq_true]

/-- C9: the short-circuiting scan of the hot group equals the logical OR
over all the group's fields (so only the presence of a difference matters),
and changing only the incoming port yields exactly
`NeedEngineReConfig`. -/
theorem validate_hot_group_or_equiv :
    (∀ c nc : Config,
      hotScan c nc hotFieldList = hotFieldList.any (hotFieldDiffers c nc)) ∧
    (∀ (c : Config) (p : Int), p ≠ c.IncomingPort →
      Validate c { c with IncomingPort := p } = NeedEngineReConfig) := by
  constructor
  · intro c nc
    exact hotScan_eq_any c nc hotFieldList
  · intro c p hp
    have hne : c.IncomingPort ≠ p := fun h => hp h.symm
    simp [Validate, hotScan, hotFieldList, hotFieldDiffers, hne,
      NeedEngineReConfig]

/-- Witness for `validate_hot_group_or_equiv` at `cfg0` and port 1. -/
theorem validate_hot_group_or_equiv_witness :
    (1 : Int) ≠ cfg0.IncomingPort ∧
      Validate cfg0 { cfg0 with IncomingPort := 1 } = NeedEngineReConfig :=
  ⟨by decide, validate_hot_group_or_equiv.2 cfg0 1 (by decide)⟩

/-- `rate.Limit` of `golang.org/x/time/rate`: either `rate.Inf` or a finite
tokens-per-second value (always a nonnegative integer here). -/
inductive RLimit
  | inf
  | lim (r : Nat)
deriving DecidableEq

/-- `rate.NewLimiter(limit, burst)` descriptor. -/
structure Limiter where
  limit : RLimit
  burst : Nat
deriving DecidableEq

/-- Go `unicode.IsSpace` on the ASCII range (the range `strings.TrimSpace`
trims for the inputs in play). -/
def goIsSpace (c : Char) : Bool :=
  c = ' ' || c = '\t' || c = '\n' || c = '\x0b' || c = '\x0c' || c = '\r'

/-- Go `unicode.ToLower` on the ASCII range. -/
def goLowerChar (c : Char) : Char :=
  if 'A' ≤ c ∧ c ≤ 'Z' then Char.ofNat (c.toNat + 32) else c

/-- Go `strings.ToLower` (ASCII fragment). -/
def goToLower (s : String) : String := String.mk (s.data.map goLowerChar)

/-- Go `strings.TrimSpace` (ASCII fragment). -/
def goTrimSpace (s : String) : String :=
  String.mk (((s.data.dropWhile goIsSpace).reverse.dropWhile goIsSpace).reverse)

/-- `func rateLimiter(rstr string) (*rate.Limiter, error)` (lines 143–173).
The `datasize.ByteSize.UnmarshalText` collaborator is an external library,
so it is a parameter `bsParse` returning the parsed byte count (the Go
value is a `uint64`, modelled as `Nat`). -/
def rateLimiterSwitch (bsParse : String → Except String Nat) (r : String) :
    Except String Limiter :=
  if r = "low" then .ok ⟨.lim 50000, 50000 * 3⟩
  else if r = "medium" then .ok ⟨.lim 500000, 500000 * 3⟩
  else if r = "high" then .ok ⟨.lim 1500000, 1500000 * 3⟩
  else if r = "unlimited" ∨ r = "0" ∨ r = "" then .ok ⟨.inf, 0⟩
  else
    match bsParse r with
    | .error e => .error e
    | .ok v =>
      if v > 2147483647 then .error "excceed int val"
      else .ok ⟨.lim v, v * 3⟩

/-- The whole of `rateLimiter`: the `rstr = strings.ToLower(strings.TrimSpace(rstr))`
reassignment followed by the `switch`. -/
def rateLimiter (bsParse : String → Except String Nat) (rstr : String) :
    Except String Limiter :=
  rateLimiterSwitch bsParse (goToLower (goTrimSpace rstr))

/-- Model of the external `datasize.ByteSize.UnmarshalText` restricted to
plain decimal strings (a bare number with no unit suffix is a byte count);
anything else is rejected, which is sound for the concrete inputs used
below. -/
def parseDecimal (s : String) : Except String Nat :=
  if s.data ≠ [] ∧ s.data.all Char.isDigit then
    .ok (s.data.foldl (fun a c => a * 10 + (c.toNat - 48)) 0)
  else .error "syntax error"

/-- C3: `rateLimiter` first trims and lower-cases its input, then maps the
literal tokens: "low" ↦ (50000, 150000), "medium" ↦ (500000, 1500000),
"high" ↦ (1500000, 4500000) in any letter case, and "unlimited", "0" and
the empty string ↦ the infinite rate with burst 0 — for every byte-size
collaborator `bsParse`. -/
theorem rateLimiter_literal_tokens
    (bsParse : String → Except String Nat) (s : String) :
    (goToLower (goTrimSpace s) = "low" →
      rateLimiter bsParse s = .ok ⟨.lim 50000, 150000⟩) ∧
    (goToLower (goTrimSpace s) = "medium" →
      rateLimiter bsParse s = .ok ⟨.lim 500000, 1500000⟩) ∧
    (goToLower (goTrimSpace s) = "high" →
      rateLimiter bsParse s = .ok ⟨.lim 1500000, 4500000⟩) ∧
    (goToLower (goTrimSpace s) = "unlimited" ∨ goToLower (goTrimSpace s) = "0" ∨
        goToLower (goTrimSpace s) = "" →
      rateLimiter bsParse s = .ok ⟨.inf, 0⟩) := by
  refine ⟨fun h => ?_, fun h => ?_, fun h => ?_, fun h => ?_⟩ <;>
    simp only [rateLimiter, rateLimiterSwitch, h] <;> first
      | rfl
      | (rcases h with h | h | h <;> simp [rateLimiter, rateLimiterSwitch, h])

/-- Witness for `rateLimiter_literal_tokens`: the upper-case "HIGH" maps to
rate 1500000 with burst 4500000. -/
theorem rateLimiter_literal_tokens_witness :
    goToLower (goTrimSpace "HIGH") = "high" ∧
      rateLimiter parseDecimal "HIGH" = .ok ⟨.lim 1500000, 4500000⟩ :=
  ⟨by decide, (rateLimiter_literal_tokens parseDecimal "HIGH").2.2.1 (by decide)⟩

/-- C4: on a non-literal, non-empty input whose byte-size parse succeeds
with value `v`, `rateLimiter` errors when `v` exceeds 2147483647 and
otherwise returns rate `v` with burst `3 v`; concretely,
`rateLimiter` on "3000000000" is an error. -/
theorem rateLimiter_bytesize_range
    (bsParse : String → Except String Nat) (s : String) (v : Nat)
    (hlit : goToLower (goTrimSpace s) ≠ "low" ∧
      goToLower (goTrimSpace s) ≠ "medium" ∧
      goToLower (goTrimSpace s) ≠ "high" ∧
      goToLower (goTrimSpace s) ≠ "unlimited" ∧
      goToLower (goTrimSpace s) ≠ "0" ∧
      goToLower (goTrimSpace s) ≠ "")
    (hp : bsParse (goToLower (goTrimSpace s)) = .ok v) :
    (v > 2147483647 → rateLimiter bsParse s = .error "excceed int val") ∧
    (v ≤ 2147483647 → rateLimiter bsParse s = .ok ⟨.lim v, v * 3⟩) ∧
    rateLimiter parseDecimal "3000000000" = .error "excceed int val" := by
  obtain ⟨h1, h2, h3, h4, h5, h6⟩ := hlit
  have hr : rateLimiter bsParse s =
      if v > 2147483647 then .error "excceed int val"
      else .ok ⟨.lim v, v * 3⟩ := by
    simp [rateLimiter, rateLimiterSwitch, h1, h2, h3, h4, h5, h6, hp]
  refine ⟨fun hv => ?_, fun hv => ?_, by rfl⟩
  · rw [hr, if_pos hv]
  · rw [hr, if_neg (by omega)]

/-- Witness for `rateLimiter_bytesize_range` at the in-range input
"10000". -/
theorem rateLimiter_bytesize_range_witness :
    parseDecimal (goToLower (goTrimSpace "10000")) = .ok 10000 ∧
      rateLimiter parseDecimal "10000" = .ok ⟨.lim 10000, 30000⟩ :=
  ⟨by rfl, (rateLimiter_bytesize_range parseDecimal "10000" 10000
      (by decide) (by rfl)).2.1 (by decide)⟩

theorem limiterInvAux (k : Nat) (hk : k ≤ 2147483647) :
    ((Limiter.mk (.lim k) (k * 3)).limit = .inf →
      (Limiter.mk (.lim k) (k * 3)).burst = 0) ∧
    (∀ r : Nat, (Limiter.mk (.lim k) (k * 3)).limit = .lim r →
      (Limiter.mk (.lim k) (k * 3)).burst = 3 * r ∧ r ≤ 2147483647) := by
  refine ⟨fun h => by simp at h, fun r hr => ?_⟩
  simp only [RLimit.lim.injEq] at hr
  subst hr
  exact ⟨Nat.mul_comm k 3, hk⟩

/-- C6: every limiter `rateLimiter` successfully produces satisfies the
`RateLimiterSpec` invariant — infinite rate forces burst 0, and a finite
rate `r` forces burst `3 r` with `r ≤ 2147483647` — for every byte-size
collaborator `bsParse`. -/
theorem rateLimiter_spec_invariant
    (bsParse : String → Except String Nat) (s : String) (l : Limiter)
    (h : rateLimiter bsParse s = .ok l) :
    (l.limit = .inf → l.burst = 0) ∧
    (∀ r : Nat, l.limit = .lim r → l.burst = 3 * r ∧ r ≤ 2147483647) := by
  unfold rateLimiter rateLimiterSwitch at h
  split at h
  · simp only [Except.ok.injEq] at h
    subst h
    exact limiterInvAux 50000 (by norm_num)
  split at h
  · simp only [Except.ok.injEq] at h
    subst h
    exact limiterInvAux 500000 (by norm_num)
  split at h
  · simp only [Except.ok.injEq] at h
    subst h
    exact limiterInvAux 1500000 (by norm_num)
  split at h
  · simp only [Except.ok.injEq] at h
    subst h
    exact ⟨fun _ => rfl, fun r hr => nomatch hr⟩
  · split at h
    · exact nomatch h
    · split at h
      · exact nomatch h
      · rename_i v heq hnot
        simp only [Except.ok.injEq] at h
        subst h
        exact limiterInvAux v (by omega)

/-- Witness for `rateLimiter_spec_invariant` at input "low". -/
theorem rateLimiter_spec_invariant_witness :
    rateLimiter parseDecimal "low" = .ok ⟨.lim 50000, 150000⟩ ∧
    (((⟨.lim 50000, 150000⟩ : Limiter).limit = .inf →
        (⟨.lim 50000, 150000⟩ : Limiter).burst = 0) ∧
     (∀ r : Nat, (⟨.lim 50000, 150000⟩ : Limiter).limit = .lim r →
        (⟨.lim 50000, 150000⟩ : Limiter).burst = 3 * r ∧ r ≤ 2147483647)) :=
  ⟨by rfl,
    rateLimiter_spec_invariant parseDecimal "low" ⟨.lim 50000, 150000⟩ (by rfl)⟩

/-- `func (c *Config) UploadLimiter() *rate.Limiter` (lines 73–81): on a
parse error it clears `c.UploadRate` (the receiver is mutated in place,
modelled by returning the updated record), logs a warning — with the
already-cleared field, as the source does — and returns the unlimited
limiter; it never returns an error. -/
def UploadLimiter (bsParse : String → Except String Nat) (c : Config) :
    Config × Limiter × List String :=
  match rateLimiter bsParse c.UploadRate with
  | .error _ =>
    let c1 := { c with UploadRate := "" }
    (c1, ⟨.inf, 0⟩,
      ["RateLimit [" ++ c1.UploadRate ++ "] unreconized, set as unlimited"])
  | .ok l => (c, l, [])

/-- `func (c *Config) DownloadLimiter() *rate.Limiter` (lines 83–91). -/
def DownloadLimiter (bsParse : String → Except String Nat) (c : Config) :
    Config × Limiter × List String :=
  match rateLimiter bsParse c.DownloadRate with
  | .error _ =>
    let c1 := { c with DownloadRate := "" }
    (c1, ⟨.inf, 0⟩,
      ["RateLimit [" ++ c1.DownloadRate ++ "] unreconized, set as unlimited"])
  | .ok l => (c, l, [])

/-- C5: when the stored upload (resp. download) rate string fails to
parse, `UploadLimiter` (resp. `DownloadLimiter`) resets that field to the
empty string, logs one warning, and returns the unlimited limiter
`⟨.inf, 0⟩`; and for every input configuration each accessor total-ly
returns a limiter — either the parser's, or the unlimited fallback —
never an error. -/
theorem limiters_fail_soft (bsParse : String → Except String Nat) :
    (∀ (c : Config) (e : String),
      rateLimiter bsParse c.UploadRate = .error e →
        UploadLimiter bsParse c = ({ c with UploadRate := "" }, ⟨.inf, 0⟩,
          ["RateLimit [] unreconized, set as unlimited"])) ∧
    (∀ (c : Config) (e : String),
      rateLimiter bsParse c.DownloadRate = .error e →
        DownloadLimiter bsParse c = ({ c with DownloadRate := "" }, ⟨.inf, 0⟩,
          ["RateLimit [] unreconized, set as unlimited"])) ∧
    (∀ c : Config,
      (UploadLimiter bsParse c).2.1 = ⟨.inf, 0⟩ ∨
        rateLimiter bsParse c.UploadRate = .ok (UploadLimiter bsParse c).2.1) ∧
    (∀ c : Config,
      (DownloadLimiter bsParse c).2.1 = ⟨.inf, 0⟩ ∨
        rateLimiter bsParse c.DownloadRate = .ok (DownloadLimiter bsParse c).2.1) := by
  refine ⟨fun c e he => ?_, fun c e he => ?_, fun c => ?_, fun c => ?_⟩
  · simp [UploadLimiter, he]
  · simp [DownloadLimiter, he]
  · unfold UploadLimiter
    cases hr : rateLimiter bsParse c.UploadRate with
    | error e => left; rfl
    | ok l => right; simp [hr]
  · unfold DownloadLimiter
    cases hr : rateLimiter bsParse c.DownloadRate with
    | error e => left; rfl
    | ok l => right; simp [hr]

/-- Witness for `limiters_fail_soft`: a configuration whose rate strings
are the unparsable "garbage!!" is downgraded to unlimited by both
accessors. -/
theorem limiters_fail_soft_witness :
    rateLimiter parseDecimal
        { cfg0 with UploadRate := "garbage!!" : Config }.UploadRate
      = .error "syntax error" ∧
    UploadLimiter parseDecimal { cfg0 with UploadRate := "garbage!!" } =
      ({ cfg0 with UploadRate := "" }, ⟨.inf, 0⟩,
        ["RateLimit [] unreconized, set as unlimited"]) :=
  ⟨by rfl,
    (limiters_fail_soft parseDecimal).1 { cfg0 with UploadRate := "garbage!!" }
      "syntax error" (by rfl)⟩

/-- The 20 struct fields of `Config` in declaration order, as iterated by
`reflect` in `SyncViper`. -/
inductive CField
  | AutoStart | EngineDebug | MuteEngineLog | ObfsPreferred | ObfsRequirePreferred
  | DisableTrackers | DisableIPv6 | DownloadDirectory | WatchDirectory
  | EnableUpload | EnableSeeding | IncomingPort | DoneCmd | SeedRatio
  | UploadRate | DownloadRate | TrackerListURL | AlwaysAddTrackers
  | ProxyURL | RssURL
deriving DecidableEq

/-- A Go interface value as produced by `CField(i).Interface()` for the
field types occurring in `Config`. -/
inductive GoVal
  | s (v : String)
  | b (v : Bool)
  | i (v : Int)
  | f32 (v : Int)
deriving DecidableEq

/-- `typeOfC.CField(i).Name`. -/
def fieldName : CField → String
  | .AutoStart => "AutoStart"
  | .EngineDebug => "EngineDebug"
  | .MuteEngineLog => "MuteEngineLog"
  | .ObfsPreferred => "ObfsPreferred"
  | .ObfsRequirePreferred => "ObfsRequirePreferred"
  | .DisableTrackers => "DisableTrackers"
  | .DisableIPv6 => "DisableIPv6"
  | .DownloadDirectory => "DownloadDirectory"
  | .WatchDirectory => "WatchDirectory"
  | .EnableUpload => "EnableUpload"
  | .EnableSeeding => "EnableSeeding"
  | .IncomingPort => "IncomingPort"
  | .DoneCmd => "DoneCmd"
  | .SeedRatio => "SeedRatio"
  | .UploadRate => "UploadRate"
  | .DownloadRate => "DownloadRate"
  | .TrackerListURL => "TrackerListURL"
  | .AlwaysAddTrackers => "AlwaysAddTrackers"
  | .ProxyURL => "ProxyURL"
  | .RssURL => "RssURL"

/-- `cv.CField(i).Interface()`. -/
def fieldVal (f : CField) (c : Config) : GoVal :=
  match f with
  | .AutoStart => .b c.AutoStart
  | .EngineDebug => .b c.EngineDebug
  | .MuteEngineLog => .b c.MuteEngineLog
  | .ObfsPreferred => .b c.ObfsPreferred
  | .ObfsRequirePreferred => .b c.ObfsRequirePreferred
  | .DisableTrackers => .b c.DisableTrackers
  | .DisableIPv6 => .b c.DisableIPv6
  | .DownloadDirectory => .s c.DownloadDirectory
  | .WatchDirectory => .s c.WatchDirectory
  | .EnableUpload => .b c.EnableUpload
  | .EnableSeeding => .b c.EnableSeeding
  | .IncomingPort => .i c.IncomingPort
  | .DoneCmd => .s c.DoneCmd
  | .SeedRatio => .f32 c.SeedRatio
  | .UploadRate => .s c.UploadRate
  | .DownloadRate => .s c.DownloadRate
  | .TrackerListURL => .s c.TrackerListURL
  | .AlwaysAddTrackers => .b c.AlwaysAddTrackers
  | .ProxyURL => .s c.ProxyURL
  | .RssURL => .s c.RssURL

/-- The fields in the order `typeOfC.NumField()` iterates them. -/
def fieldList : List CField :=
  [.AutoStart, .EngineDebug, .MuteEngineLog, .ObfsPreferred, .ObfsRequirePreferred,
   .DisableTrackers, .DisableIPv6, .DownloadDirectory, .WatchDirectory,
   .EnableUpload, .EnableSeeding, .IncomingPort, .DoneCmd, .SeedRatio,
   .UploadRate, .DownloadRate, .TrackerListURL, .AlwaysAddTrackers,
   .ProxyURL, .RssURL]

/-- An observable side effect of `SyncViper`: a staged `viper.Set`, an
audit `log.Println` line, or the single `viper.WriteConfigAs` call. -/
inductive Effect
  | setKey (name : String) (v : GoVal)
  | logLine (name : String) (oldv newv : GoVal)
  | writeFile
deriving DecidableEq

/-- `true` exactly on `Effect.setKey`. -/
def Effect.isSet : Effect → Bool
  | .setKey _ _ => true
  | _ => false

/-- The `for i := 0; i < typeOfC.NumField(); i++` loop of `SyncViper`:
for each field where the snapshots differ, one `viper.Set` and one log
line, in field order. -/
def syncLoop (c nc : Config) : List CField → List Effect
  | [] => []
  | f :: fs =>
    if fieldVal f c != fieldVal f nc then
      .setKey (fieldName f) (fieldVal f nc) ::
        .logLine (fieldName f) (fieldVal f c) (fieldVal f nc) ::
        syncLoop c nc fs
    else syncLoop c nc fs

/-- `func (c *Config) SyncViper(nc Config) error` (lines 126–141): stage
the delta, then perform the single durable write; the outcome of
`viper.WriteConfigAs` is external, passed as `writeResult` (`none` =
success), and is returned unchanged as the function's error. -/
def SyncViper (c nc : Config) (writeResult : Option String) :
    List Effect × Option String :=
  (syncLoop c nc fieldList ++ [.writeFile], writeResult)

/-- Modelled from the spec: the orchestrator (`ConfigStore`, §2/§5) that
holds the active configuration is not part of the sources under
verification (only `SyncViper` is); per §4.4/§5 it advances the active
snapshot to `nc` only when the durable write succeeds, and on failure
keeps the previous active configuration fully intact and surfaces the
error. -/
def reconcile (active nc : Config) (writeResult : Option String) :
    Config × Option String :=
  match SyncViper active nc writeResult with
  | (_, some e) => (active, some e)
  | (_, none) => (nc, none)

/-- C2: when the single durable write fails with `e`, `SyncViper` returns
exactly that error, and the orchestrator keeps the previously active
snapshot fully intact — the active configuration is never advanced or
partially updated by a failed sync. -/
theorem syncViper_write_failure_preserves_active
    (active nc : Config) (e : String) :
    (SyncViper active nc (some e)).2 = some e ∧
    reconcile active nc (some e) = (active, some e) ∧
    (∀ w : Option String, (SyncViper active nc w).2 = w) := by
  refine ⟨rfl, ?_, fun w => rfl⟩
  simp [reconcile, SyncViper]

theorem syncLoop_eq_flatMap (c nc : Config) :
    ∀ fs : List CField, syncLoop c nc fs =
      (fs.filter (fun f => fieldVal f c != fieldVal f nc)).flatMap
        (fun f => [Effect.setKey (fieldName f) (fieldVal f nc),
                   Effect.logLine (fieldName f) (fieldVal f c) (fieldVal f nc)]) := by
  intro fs
  induction fs with
  | nil => rfl
  | cons f fs ih =>
    by_cases h : (fieldVal f c != fieldVal f nc) = true
    · simp only [syncLoop, h, if_pos, List.filter_cons, List.flatMap_cons, ih]
      simp [h]
    · simp only [syncLoop, List.filter_cons, h]
      simp only [Bool.false_eq_true, if_false] at h ⊢
      simp [h, ih]

/-- C7: `SyncViper` stages one `viper.Set` and appends one log line for
exactly the fields where the snapshots differ, in field order, nothing
for equal fields, followed by the single durable write; in the example
where only `WatchDirectory` (`"/a"` to `"/b"`) and `DownloadRate` (`""`
to `"low"`) differ, exactly the two corresponding keys are staged and
the classifier yields `NeedRestartWatch ||| NeedEngineReConfig`. -/
theorem syncViper_stages_exactly_diffs :
    (∀ (c nc : Config) (w : Option String),
      (SyncViper c nc w).1 =
        (fieldList.filter (fun f => fieldVal f c != fieldVal f nc)).flatMap
          (fun f => [Effect.setKey (fieldName f) (fieldVal f nc),
                     Effect.logLine (fieldName f) (fieldVal f c) (fieldVal f nc)])
          ++ [Effect.writeFile]) ∧
    ((SyncViper { cfg0 with WatchDirectory := "/a" }
        { cfg0 with WatchDirectory := "/b", DownloadRate := "low" } none).1.filter
        Effect.isSet =
      [Effect.setKey "WatchDirectory" (.s "/b"),
       Effect.setKey "DownloadRate" (.s "low")]) ∧
    Validate { cfg0 with WatchDirectory := "/a" }
        { cfg0 with WatchDirectory := "/b", DownloadRate := "low" } =
      (NeedRestartWatch ||| NeedEngineReConfig) := by
  refine ⟨fun c nc w => ?_, by rfl, by rfl⟩
  simp [SyncViper, syncLoop_eq_flatMap]

/-- The second `if` block of `NormlizeConfigDir` (the watch directory),
taking the `changed` accumulator from the first block. -/
def normWatchStep (abs : String → Except String String) (c : Config)
    (changed : Bool) : Config × Bool × Option String :=
  if c.WatchDirectory ≠ "" then
    match abs c.WatchDirectory with
    | .error err =>
        (c, false, some ("Invalid path " ++ c.WatchDirectory ++ ", " ++ err))
    | .ok wdir =>
        if c.WatchDirectory ≠ wdir then
          ({ c with WatchDirectory := wdir }, true, none)
        else (c, changed, none)
  else (c, changed, none)

/-- `func (c *Config) NormlizeConfigDir() (bool, error)` (lines 46–71),
over an explicit `filepath.Abs` collaborator `abs`; the receiver is
mutated in place in Go, modelled by returning the updated record with
`(changed, err)`. The source formats the download-directory failure
message with `c.WatchDirectory` (line 51), reproduced faithfully. -/
def NormlizeConfigDir (abs : String → Except String String) (c : Config) :
    Config × Bool × Option String :=
  if c.DownloadDirectory ≠ "" then
    match abs c.DownloadDirectory with
    | .error err =>
        (c, false, some ("Invalid path " ++ c.WatchDirectory ++ ", " ++ err))
    | .ok dldir =>
        if c.DownloadDirectory ≠ dldir then
          normWatchStep abs { c with DownloadDirectory := dldir } true
        else normWatchStep abs c false
  else normWatchStep abs c false

/-- The per-path canonicalization block that `NormlizeConfigDir` applies
to each of its two directory fields (the spec's §4.3 `normalize`
contract): skip empty paths, resolve through `abs`, report `changed` iff
the resolved form differs textually. -/
def normalizePath (abs : String → Except String String) (p : String) :
    Except String (String × Bool) :=
  if p ≠ "" then
    match abs p with
    | .error err => .error err
    | .ok q => if p ≠ q then .ok (q, true) else .ok (p, false)
  else .ok (p, false)

/-- C8: `normalizePath` is a no-op on the empty path; on a non-empty path
that resolves to `q` it returns `q` with `changed` true iff `q` differs
textually from the input; a path the resolver already fixes is returned
unchanged with `changed = false`; and it is idempotent — re-normalizing
a produced canonical path (one the resolver fixes) changes nothing. -/
theorem normalizePath_noop_changed_idem (abs : String → Except String String) :
    (normalizePath abs "" = .ok ("", false)) ∧
    (∀ p q : String, p ≠ "" → abs p = .ok q →
      normalizePath abs p = .ok (q, p != q)) ∧
    (∀ p : String, abs p = .ok p → normalizePath abs p = .ok (p, false)) ∧
    (∀ (p q : String) (ch : Bool), normalizePath abs p = .ok (q, ch) →
      abs q = .ok q → normalizePath abs q = .ok (q, false)) := by
  refine ⟨rfl, fun p q hp habs => ?_, fun p habs => ?_, fun p q ch h hq => ?_⟩
  · by_cases hpq : p = q
    · subst hpq
      simp [normalizePath, hp, habs]
    · simp [normalizePath, hp, habs, hpq]
  · by_cases hp : p = ""
    · subst hp
      rfl
    · simp [normalizePath, hp, habs]
  · by_cases hq0 : q = ""
    · subst hq0
      rfl
    · simp [normalizePath, hq0, hq]

/-- A concrete resolver used for evaluation: it roots relative paths
under "/root/". -/
def absDemo (s : String) : Except String String :=
  match s.data with
  | '/' :: _ => .ok s
  | _ => .ok ("/root/" ++ s)

theorem normalizePath_noop_changed_idem_witness :
    ("a" : String) ≠ "" ∧ absDemo "a" = .ok "/root/a" ∧
      normalizePath absDemo "a" = .ok ("/root/a", "a" != "/root/a") ∧
      normalizePath absDemo "/root/a" = .ok ("/root/a", false) :=
  ⟨by decide, by rfl,
    (normalizePath_noop_changed_idem absDemo).2.1 "a" "/root/a" (by decide) (by rfl),
    (normalizePath_noop_changed_idem absDemo).2.2.1 "/root/a" (by rfl)⟩

/-- C10: whenever `NormlizeConfigDir` returns a non-nil error, the
returned boolean is `false` and every field of the receiver other than
`DownloadDirectory` and `WatchDirectory` is untouched; and when the
watch-directory resolution fails after the download directory was
already rewritten to its canonical form `d`, the rewritten
`DownloadDirectory` is kept (no rollback) while `changed = false` is
reported. -/
theorem normlizeConfigDir_error_frame (abs : String → Except String String) :
    (∀ (c : Config) (e : String) (c' : Config) (b : Bool),
      NormlizeConfigDir abs c = (c', b, some e) →
        b = false ∧
        c'.AutoStart = c.AutoStart ∧ c'.EngineDebug = c.EngineDebug ∧
        c'.MuteEngineLog = c.MuteEngineLog ∧ c'.ObfsPreferred = c.ObfsPreferred ∧
        c'.ObfsRequirePreferred = c.ObfsRequirePreferred ∧
        c'.DisableTrackers = c.DisableTrackers ∧ c'.DisableIPv6 = c.DisableIPv6 ∧
        c'.EnableUpload = c.EnableUpload ∧ c'.EnableSeeding = c.EnableSeeding ∧
        c'.IncomingPort = c.IncomingPort ∧ c'.DoneCmd = c.DoneCmd ∧
        c'.SeedRatio = c.SeedRatio ∧ c'.UploadRate = c.UploadRate ∧
        c'.DownloadRate = c.DownloadRate ∧ c'.TrackerListURL = c.TrackerListURL ∧
        c'.AlwaysAddTrackers = c.AlwaysAddTrackers ∧ c'.ProxyURL = c.ProxyURL ∧
        c'.RssURL = c.RssURL) ∧
    (∀ (c : Config) (d e : String),
      c.DownloadDirectory ≠ "" → abs c.DownloadDirectory = .ok d →
      c.DownloadDirectory ≠ d → c.WatchDirectory ≠ "" →
      abs c.WatchDirectory = .error e →
      NormlizeConfigDir abs c =
        ({ c with DownloadDirectory := d }, false,
          some ("Invalid path " ++ c.WatchDirectory ++ ", " ++ e))) := by
  constructor
  · intro c e c' b h
    unfold NormlizeConfigDir normWatchStep at h
    repeat' split at h
    all_goals rw [Prod.mk.injEq, Prod.mk.injEq] at h
    all_goals obtain ⟨hc, hb, he⟩ := h
    all_goals first
      | exact Option.noConfusion he
      | (subst hc; subst hb; simp)
  · intro c d e h1 h2 h3 h4 h5
    simp [NormlizeConfigDir, normWatchStep, h1, h2, h3, h4, h5]

/-- A concrete resolver used for evaluation: it fails exactly on "w" and
roots every other path at "/". -/
def absFailW (s : String) : Except String String :=
  if s = "w" then .error "boom" else .ok ("/" ++ s)

theorem normlizeConfigDir_error_frame_witness :
    ({ cfg0 with DownloadDirectory := "d", WatchDirectory := "w" : Config
      }.DownloadDirectory ≠ "" ∧
     absFailW "d" = .ok "/d" ∧ ("d" : String) ≠ "/d" ∧ ("w" : String) ≠ "" ∧
     absFailW "w" = .error "boom") ∧
    NormlizeConfigDir absFailW
        { cfg0 with DownloadDirectory := "d", WatchDirectory := "w" } =
      ({ cfg0 with DownloadDirectory := "/d", WatchDirectory := "w" }, false,
        some "Invalid path w, boom") :=
  ⟨⟨by decide, by rfl, by decide, by decide, by rfl⟩, by
    have := (normlizeConfigDir_error_frame absFailW).2
      { cfg0 with DownloadDirectory := "d", WatchDirectory := "w" } "/d" "boom"
      (by decide) (by rfl) (by decide) (by decide) (by rfl)
    simpa using this⟩
